import Mathlib

/-!
Shallow embedding of the resume-analyzer web application (`app.py`) and
verification of its specification claims.

Modelling conventions:
* Python strings are Lean `String`s; `str.lower()` is modelled as an
  ASCII character-wise lowercase (`pyLower`), and Python's substring
  test `a in b` as list-infix containment of the character lists
  (`pyIn`).
* Python floats are modelled as rationals.  `round(x, 2)` is modelled
  as `pyRound2`: multiply by 100, round to the nearest integer, divide
  by 100.  (Python rounds exact halves to even; the only values the
  analyzer ever rounds are `100 * k / 11` for `0 ≤ k ≤ 11`, none of
  which is an exact half of a hundredth, so the models agree on every
  reachable input.)
* External effectful collaborators (the PDF text extractor, the DOCX
  paragraph extractor, the generative-AI call) are parameters of type
  `String → Except String String`: `.ok t` models a normal return of
  text `t`, `.error e` models a raised exception whose message is `e`.
  The request's file mapping is an association list, the random UUID a
  string parameter.  File-system writes are not observable by any
  claim and are not modelled.
-/

/-- Model of Python `str.lower()` (character-wise, ASCII range). -/
def pyLower (s : String) : String := ⟨s.data.map Char.toLower⟩

/-- Model of Python `needle in hay` on strings: substring containment. -/
def pyIn (needle hay : String) : Bool := decide (needle.data <:+: hay.data)

/-- Model of Python `round(q, 2)` on the analyzer's rational model of floats. -/
def pyRound2 (q : ℚ) : ℚ := (round (q * 100) : ℤ) / 100

/-- `REQUIRED_SKILLS` (app.py lines 35–38): the fixed 11-element skill list. -/
def REQUIRED_SKILLS : List String :=
  ["Python", "JavaScript", "Machine Learning", "Flask", "React", "SQL",
   "Data Science", "HTML", "CSS", "NLP", "AI"]

/-- The guard of the skill comprehensions: `skill.lower() in text.lower()`. -/
def skillFound (text skill : String) : Bool := pyIn (pyLower skill) (pyLower text)

/-- The four fixed advisory strings of `analyze_resume` (app.py lines 79–87). -/
def recMsgProjects : String :=
  "Consider adding a Projects section with real-world applications."

def recMsgExperience : String :=
  "Mention work experience or internships to strengthen your resume."

def recMsgEducation : String :=
  "Include your educational background."

def recMsgCertif : String :=
  "Adding certifications can improve credibility."

/-- `extract_text_from_pdf` (app.py lines 58–62): call the extractor,
catching any exception and returning it as an error string. -/
def extract_text_from_pdf (extract : String → Except String String)
    (pdf_path : String) : String :=
  match extract pdf_path with
  | Except.ok t => t
  | Except.error e => "Error extracting text from PDF: " ++ e

/-- `extract_text_from_docx` (app.py lines 65–70); the joined paragraph
text on success is the extractor's `.ok` value. -/
def extract_text_from_docx (extract : String → Except String String)
    (docx_path : String) : String :=
  match extract docx_path with
  | Except.ok t => t
  | Except.error e => "Error extracting text from DOCX: " ++ e

/-- `get_resume_suggestions` (app.py lines 101–107): query the model,
catching any exception and returning it as an error string. -/
def get_resume_suggestions (gen : String → Except String String)
    (text : String) : String :=
  match gen text with
  | Except.ok t => t
  | Except.error e => "AI Error: " ++ e

/-- The analysis result dictionary (app.py lines 91–97). -/
structure AnalysisResult where
  skills_matched : List String
  missing_skills : List String
  match_percentage : ℚ
  recommendations : List String
  ai_suggestions : String
deriving Repr, DecidableEq

/-- `analyze_resume` (app.py lines 74–97). -/
def analyze_resume (gen : String → Except String String)
    (text : String) : AnalysisResult :=
  let found_skills := REQUIRED_SKILLS.filter (fun skill => skillFound text skill)
  let missing_skills := REQUIRED_SKILLS.filter (fun skill => !(skillFound text skill))
  let percentage : ℚ :=
    ((found_skills.length : ℚ) / (REQUIRED_SKILLS.length : ℚ)) * 100
  let recommendations :=
    (if pyIn "projects" (pyLower text) then [] else [recMsgProjects]) ++
    (if pyIn "experience" (pyLower text) then [] else [recMsgExperience]) ++
    (if pyIn "education" (pyLower text) then [] else [recMsgEducation]) ++
    (if pyIn "certification" (pyLower text) then [] else [recMsgCertif])
  { skills_matched := found_skills
    missing_skills := missing_skills
    match_percentage := pyRound2 percentage
    recommendations := recommendations
    ai_suggestions := get_resume_suggestions gen text }

/-- Count of skills matched in `text`. -/
def matchedCount (text : String) : ℕ :=
  (REQUIRED_SKILLS.filter (fun skill => skillFound text skill)).length

/-- Model of Python `s.replace(pat, rep)` for a single-character pattern
(as used in the template: `.replace('*', '&#8226;').replace('\n', '<br>')`). -/
def pyReplaceChar (pat : Char) (rep : String) (s : String) : String :=
  ⟨s.data.flatMap (fun c => if c = pat then rep.data else [c])⟩

/-- Rendering of the (already two-decimal) match percentage, modelling
Python float `str()` on the reachable values `round(100 * k / 11, 2)`. -/
def pctRepr (q : ℚ) : String :=
  let cents : ℤ := round (q * 100)
  let intPart := cents / 100
  let frac := (cents % 100).toNat
  if frac = 0 then toString intPart ++ ".0"
  else if frac % 10 = 0 then toString intPart ++ "." ++ toString (frac / 10)
  else if frac < 10 then toString intPart ++ ".0" ++ toString frac
  else toString intPart ++ "." ++ toString frac

/-- The literal template text of `json_to_html` (app.py lines 131–197) up to
the first substitution `data['skills_matched']|join(", ")`. -/
def htmlHead : String :=
  "\n<!DOCTYPE html>\n" ++
  "<html lang=\"en\">\n" ++
  "<head>\n" ++
  "    <meta charset=\"UTF-8\">\n" ++
  "    <meta name=\"viewport\" content=\"width=device-width, initial-scale=1.0\">\n" ++
  "    <title>Resume Analyzer</title>\n" ++
  "    <link href=\"https://fonts.googleapis.com/css2?family=Poppins:wght@400;600&display=swap\" rel=\"stylesheet\">\n" ++
  "    <style>\n" ++
  "        body \x7b\n" ++
  "            font-family: \x27Poppins\x27, sans-serif;\n" ++
  "            background: linear-gradient(135deg, #f5f7fa 0%, #c3cfe2 100%);\n" ++
  "            color: #333;\n" ++
  "            text-align: center;\n" ++
  "            padding: 40px;\n" ++
  "            margin: 0;\n" ++
  "        \x7d\n" ++
  "        .container \x7b\n" ++
  "            background: #ffffff;\n" ++
  "            padding: 40px;\n" ++
  "            border-radius: 20px;\n" ++
  "            box-shadow: 0 0 25px rgba(0, 0, 0, 0.3);\n" ++
  "            width: 70%;\n" ++
  "            margin: auto;\n" ++
  "            animation: slideIn 0.8s ease-in-out;\n" ++
  "            transition: transform 0.3s ease-in-out;\n" ++
  "\n" ++
  "            \n" ++
  "        \x7d\n" ++
  "        .container:hover \x7b\n" ++
  "            transform: scale(1.02);\n" ++
  "        \x7d\n" ++
  "        h1 \x7b\n" ++
  "            color: #673ab7;\n" ++
  "            font-size: 2.5em;\n" ++
  "            margin-bottom: 20px;\n" ++
  "        \x7d\n" ++
  "        p \x7b\n" ++
  "            margin-bottom: 15px;\n" ++
  "            font-size: 1.1em;\n" ++
  "        \x7d\n" ++
  "        ul \x7b\n" ++
  "            text-align: left;\n" ++
  "            display: inline-block;\n" ++
  "            background: #f3f3f3;\n" ++
  "            padding: 15px;\n" ++
  "            border-radius: 10px;\n" ++
  "            box-shadow: 0 0 10px rgba(0, 0, 0, 0.1);\n" ++
  "        \x7d\n" ++
  "        @keyframes slideIn \x7b\n" ++
  "            from \x7b transform: translateY(-20px); opacity: 0; \x7d\n" ++
  "            to \x7b transform: translateY(0); opacity: 1; \x7d\n" ++
  "        \x7d\n" ++
  "    </style>\n" ++
  "</head>\n" ++
  "<body>\n" ++
  "<div class=\"container\">\n" ++
  "    <h1>✅ Resume Analysis Result</h1>\n" ++
  "    <p><strong>Matched Skills:</strong> "

/-- Template text between the matched-skills and missing-skills substitutions. -/
def htmlAfterMatched : String :=
  "</p>\n    <p><strong>Missing Skills:</strong> "

/-- Template text between the missing-skills and match-percentage substitutions. -/
def htmlAfterMissing : String :=
  "</p>\n    <p><strong>Match Percentage:</strong> "

/-- Template text between the match-percentage and AI-suggestions substitutions. -/
def htmlAfterPct : String :=
  "%</p>\n    <p><strong>AI Suggestions:</strong></p>\n    <p>"

/-- Closing template text after the AI-suggestions substitution. -/
def htmlTail : String :=
  "</p>\n</div>\n</body>\n</html>\n    "

/-- `json_to_html` (app.py lines 130–198): the rendered template.  The
skill lists come from the fixed list and contain no HTML-special
characters, so Jinja autoescaping is the identity on every reachable
value and is not modelled. -/
def json_to_html (d : AnalysisResult) : String :=
  htmlHead
  ++ String.intercalate ", " d.skills_matched
  ++ htmlAfterMatched
  ++ String.intercalate ", " d.missing_skills
  ++ htmlAfterMissing
  ++ pctRepr d.match_percentage
  ++ htmlAfterPct
  ++ pyReplaceChar '\n' "<br>" (pyReplaceChar '*' "&#8226;" d.ai_suggestions)
  ++ htmlTail

/-- An uploaded multipart file: a client-supplied filename plus content. -/
structure UploadedFile where
  filename : String
  content : String
deriving Repr, DecidableEq

/-- The external collaborators of the `/analyze` handler: the two text
extractors, the generative model, and the generated UUID string. -/
structure AnalyzeDeps where
  pdfExtract : String → Except String String
  docxExtract : String → Except String String
  gen : String → Except String String
  uuidStr : String

/-- Model of Python `s.rsplit('.', 1)[-1]`: everything after the last
dot, or the whole string when no dot is present. -/
def rsplitLastDot (s : String) : String :=
  if s.data.contains '.' then ⟨(s.data.reverse.takeWhile (fun c => c ≠ '.')).reverse⟩
  else s

/-- `ext = file.filename.rsplit('.', 1)[-1].lower()` (app.py line 212). -/
def extOf (filename : String) : String := pyLower (rsplitLastDot filename)

/-- Which extraction routine the handler dispatches to. -/
inductive Extractor
  | pdf
  | docx
deriving Repr, DecidableEq

/-- The dispatch conditional of app.py line 217: PDF exactly when the
derived extension equals "pdf", DOCX otherwise. -/
def chooseExtractor (ext : String) : Extractor :=
  if ext = "pdf" then Extractor.pdf else Extractor.docx

/-- `extract_text_from_pdf(filepath) if ext == 'pdf' else extract_text_from_docx(filepath)`
(app.py line 217). -/
def extractText (deps : AnalyzeDeps) (ext filepath : String) : String :=
  match chooseExtractor ext with
  | Extractor.pdf => extract_text_from_pdf deps.pdfExtract filepath
  | Extractor.docx => extract_text_from_docx deps.docxExtract filepath

/-- `filename = f"{uuid.uuid4()}.{ext}"` (app.py line 213): the name the
upload is saved under. -/
def savedName (deps : AnalyzeDeps) (f : UploadedFile) : String :=
  deps.uuidStr ++ "." ++ extOf f.filename

/-- The 400-response body `{"error": "No file uploaded"}` (app.py line 209). -/
def noFileBody : String := "\x7b\"error\": \"No file uploaded\"\x7d"

/-- A response body: either a JSON error document or a rendered HTML document. -/
inductive RespBody
  | json (s : String)
  | html (s : String)
deriving Repr, DecidableEq

/-- The `/analyze` POST handler (app.py lines 206–219), returning the
HTTP status code and the response body. -/
def analyze (deps : AnalyzeDeps)
    (files : List (String × UploadedFile)) : ℕ × RespBody :=
  match files.lookup "resume" with
  | none => (400, RespBody.json noFileBody)
  | some file =>
    let ext := extOf file.filename
    let filepath := "temp/" ++ savedName deps file
    let text := extractText deps ext filepath
    let result := analyze_resume deps.gen text
    (200, RespBody.html (json_to_html result))

/-- The length of the fixed skill list is 11. -/
theorem REQUIRED_SKILLS_length : REQUIRED_SKILLS.length = 11 := rfl

/-- C1: for every input text `T`, `match_percentage` equals
`100 * (number of skills of the fixed 11-element list whose lowercased
form is a substring of the lowercased T) / 11`, rounded to 2 decimals. -/
theorem c1_match_percentage (gen : String → Except String String) (T : String) :
    (analyze_resume gen T).match_percentage
      = pyRound2 (100 * (matchedCount T : ℚ) / 11) := by
  have hstep : (analyze_resume gen T).match_percentage
      = pyRound2 (((matchedCount T : ℚ) / ((REQUIRED_SKILLS.length : ℕ) : ℚ)) * 100) := rfl
  rw [hstep, REQUIRED_SKILLS_length]
  congr 1
  push_cast
  ring

/-- C2: `skills_matched` and `missing_skills` are disjoint, together they
are a permutation of the fixed skill list (so they contain exactly its
11 skills), and each is a sublist of the fixed list (so each lists its
skills in the order of the fixed list). -/
theorem c2_skill_partition (gen : String → Except String String) (T : String) :
    List.Disjoint (analyze_resume gen T).skills_matched
        (analyze_resume gen T).missing_skills
  ∧ List.Perm ((analyze_resume gen T).skills_matched
        ++ (analyze_resume gen T).missing_skills) REQUIRED_SKILLS
  ∧ List.Sublist (analyze_resume gen T).skills_matched REQUIRED_SKILLS
  ∧ List.Sublist (analyze_resume gen T).missing_skills REQUIRED_SKILLS := by
  refine ⟨?_, ?_, ?_, ?_⟩
  · intro s hs hs'
    have h1 : skillFound T s = true :=
      List.of_mem_filter (p := fun skill => skillFound T skill) hs
    have h2 : (!(skillFound T s)) = true :=
      List.of_mem_filter (p := fun skill => !(skillFound T skill)) hs'
    rw [h1] at h2
    exact Bool.false_ne_true h2
  · exact List.filter_append_perm (fun skill => skillFound T skill) REQUIRED_SKILLS
  · exact List.filter_sublist (p := fun skill => skillFound T skill) REQUIRED_SKILLS
  · exact List.filter_sublist (p := fun skill => !(skillFound T skill)) REQUIRED_SKILLS

/-- The recommendation list of `analyze_resume`, spelled out. -/
theorem recommendations_def (gen : String → Except String String) (T : String) :
    (analyze_resume gen T).recommendations =
      (if pyIn "projects" (pyLower T) then [] else [recMsgProjects]) ++
      (if pyIn "experience" (pyLower T) then [] else [recMsgExperience]) ++
      (if pyIn "education" (pyLower T) then [] else [recMsgEducation]) ++
      (if pyIn "certification" (pyLower T) then [] else [recMsgCertif]) := rfl

/-- The matched-skill list of `analyze_resume`, spelled out. -/
theorem skills_matched_def (gen : String → Except String String) (T : String) :
    (analyze_resume gen T).skills_matched =
      REQUIRED_SKILLS.filter (fun skill => skillFound T skill) := rfl

/-- The match percentage of `analyze_resume`, spelled out. -/
theorem match_percentage_def (gen : String → Except String String) (T : String) :
    (analyze_resume gen T).match_percentage =
      pyRound2 ((((REQUIRED_SKILLS.filter (fun skill => skillFound T skill)).length : ℚ)
        / ((REQUIRED_SKILLS.length : ℕ) : ℚ)) * 100) := rfl

/-- C6: the recommendations are exactly the four fixed advisory strings,
in the fixed order (a sublist of the four-message list), each present
exactly when its keyword is absent from the lowercased text, and there
are at most 4 of them. -/
theorem c6_recommendations (gen : String → Except String String) (T : String) :
    List.Sublist (analyze_resume gen T).recommendations
        [recMsgProjects, recMsgExperience, recMsgEducation, recMsgCertif]
  ∧ ((recMsgProjects ∈ (analyze_resume gen T).recommendations)
        ↔ pyIn "projects" (pyLower T) = false)
  ∧ ((recMsgExperience ∈ (analyze_resume gen T).recommendations)
        ↔ pyIn "experience" (pyLower T) = false)
  ∧ ((recMsgEducation ∈ (analyze_resume gen T).recommendations)
        ↔ pyIn "education" (pyLower T) = false)
  ∧ ((recMsgCertif ∈ (analyze_resume gen T).recommendations)
        ↔ pyIn "certification" (pyLower T) = false)
  ∧ (analyze_resume gen T).recommendations.length ≤ 4 := by
  rw [recommendations_def gen T]
  cases hP : pyIn "projects" (pyLower T) <;>
    cases hE : pyIn "experience" (pyLower T) <;>
      cases hEd : pyIn "education" (pyLower T) <;>
        cases hC : pyIn "certification" (pyLower T) <;>
          decide

/-- `takeWhile` consumes exactly a leading block of elements satisfying
the predicate when it is followed by a failing element. -/
theorem takeWhile_append_block {p : Char → Bool} :
    ∀ (l₁ : List Char), (∀ a ∈ l₁, p a = true) → ∀ (x : Char), p x = false →
      ∀ (l₂ : List Char), (l₁ ++ x :: l₂).takeWhile p = l₁ := by
  intro l₁
  induction l₁ with
  | nil =>
    intro _ x hx l₂
    simp [List.takeWhile_cons, hx]
  | cons a l ih =>
    intro h x hx l₂
    have ha : p a = true := h a (List.mem_cons_self a l)
    have hl : ∀ b ∈ l, p b = true := fun b hb => h b (List.mem_cons_of_mem a hb)
    simp [List.takeWhile_cons, ha, ih hl x hx l₂]

/-- C3: for a filename of the form `a.b` where `b` is dot-free, the
derived extension is the lowercased `b` (split on the last dot), and the
handler dispatches to the PDF extractor exactly when the extension is
`"pdf"`, to the DOCX extractor in every other case. -/
theorem c3_extension_dispatch (a b e : String) (hb : ('.') ∉ b.data) :
    extOf (a ++ "." ++ b) = pyLower b
  ∧ (chooseExtractor e = Extractor.pdf ↔ e = "pdf")
  ∧ (e ≠ "pdf" → chooseExtractor e = Extractor.docx) := by
  refine ⟨?_, ⟨?_, ?_⟩, ?_⟩
  · have hdata : (a ++ "." ++ b).data = a.data ++ ('.') :: b.data := by
      rw [String.data_append, String.data_append]
      simp
    have hcontains : (a ++ "." ++ b).data.contains '.' = true := by
      rw [hdata]
      simp
    have hb' : ∀ c ∈ b.data.reverse, (decide (c ≠ '.')) = true := by
      intro c hc
      simp only [List.mem_reverse] at hc
      simp only [decide_eq_true_eq]
      intro hcd
      exact hb (hcd ▸ hc)
    have hsplit : rsplitLastDot (a ++ "." ++ b) = b := by
      rw [rsplitLastDot, if_pos hcontains, hdata]
      have hrev : (a.data ++ ('.') :: b.data).reverse
          = b.data.reverse ++ ('.') :: a.data.reverse := by
        simp
      rw [hrev, takeWhile_append_block b.data.reverse hb' '.' (by simp) a.data.reverse]
      simp
    rw [extOf, hsplit]
  · intro h
    by_contra hne
    rw [chooseExtractor, if_neg hne] at h
    exact absurd h (by decide)
  · intro h
    rw [chooseExtractor, if_pos h]
  · intro h
    rw [chooseExtractor, if_neg h]

/-- Witness for C3 at the spec's scenario: `a.b.pdf` resolves to `pdf`,
and a non-pdf extension goes to the DOCX extractor. -/
theorem c3_extension_dispatch_witness :
    ('.') ∉ ("pdf" : String).data
  ∧ extOf ("a.b" ++ "." ++ "pdf") = pyLower "pdf"
  ∧ ("txt" ≠ "pdf" → chooseExtractor "txt" = Extractor.docx) :=
  ⟨by decide, (c3_extension_dispatch "a.b" "pdf" "txt" (by decide)).1,
    (c3_extension_dispatch "a.b" "pdf" "txt" (by decide)).2.2⟩

/-- C4: `extract_text_from_pdf` never propagates an extraction failure:
a raised exception with message `e` yields the string
`"Error extracting text from PDF: " ++ e`, and a successful extraction
returns the extracted text unchanged. -/
theorem c4_pdf_soft_failure (extract : String → Except String String) (p : String) :
    (∀ e, extract p = Except.error e →
        extract_text_from_pdf extract p = "Error extracting text from PDF: " ++ e)
  ∧ (∀ t, extract p = Except.ok t → extract_text_from_pdf extract p = t) := by
  constructor
  · intro e he
    rw [extract_text_from_pdf, he]
  · intro t ht
    rw [extract_text_from_pdf, ht]

/-- Witness for C4: a failing extractor's message is wrapped, a
succeeding extractor's text is passed through. -/
theorem c4_pdf_soft_failure_witness :
    extract_text_from_pdf (fun _ => Except.error "bad file") "temp/x.pdf"
        = "Error extracting text from PDF: bad file"
  ∧ extract_text_from_pdf (fun _ => Except.ok "resume text") "temp/x.pdf"
        = "resume text" :=
  ⟨(c4_pdf_soft_failure (fun _ => Except.error "bad file") "temp/x.pdf").1 "bad file" rfl,
    (c4_pdf_soft_failure (fun _ => Except.ok "resume text") "temp/x.pdf").2 "resume text" rfl⟩

/-- C5: `get_resume_suggestions` never propagates a model failure: a
raised exception with message `e` yields `"AI Error: " ++ e`, and a
successful call returns the model's text verbatim. -/
theorem c5_ai_soft_failure (gen : String → Except String String) (text : String) :
    (∀ e, gen text = Except.error e →
        get_resume_suggestions gen text = "AI Error: " ++ e)
  ∧ (∀ t, gen text = Except.ok t → get_resume_suggestions gen text = t) := by
  constructor
  · intro e he
    rw [get_resume_suggestions, he]
  · intro t ht
    rw [get_resume_suggestions, ht]

/-- Witness for C5: a failing model call is wrapped, a succeeding one is
returned verbatim. -/
theorem c5_ai_soft_failure_witness :
    get_resume_suggestions (fun _ => Except.error "quota exceeded") "resume"
        = "AI Error: quota exceeded"
  ∧ get_resume_suggestions (fun _ => Except.ok "1. Add metrics") "resume"
        = "1. Add metrics" :=
  ⟨(c5_ai_soft_failure (fun _ => Except.error "quota exceeded") "resume").1
      "quota exceeded" rfl,
    (c5_ai_soft_failure (fun _ => Except.ok "1. Add metrics") "resume").2
      "1. Add metrics" rfl⟩

/-- The rendered template always carries the HTML doctype. -/
theorem doctype_infix_json_to_html (d : AnalysisResult) :
    List.IsInfix "<!DOCTYPE html>".data (json_to_html d).data := by
  have key : ∀ (a b : String), List.IsInfix "<!DOCTYPE html>".data a.data →
      List.IsInfix "<!DOCTYPE html>".data (a ++ b).data := by
    intro a b h
    rw [String.data_append]
    exact h.trans (List.prefix_append a.data b.data).isInfix
  have h0 : List.IsInfix "<!DOCTYPE html>".data htmlHead.data := by decide
  simp only [json_to_html]
  exact key _ _ (key _ _ (key _ _ (key _ _ (key _ _ (key _ _ (key _ _ (key _ _ h0)))))))

/-- C7: a POST to `/analyze` without a `resume` multipart field yields
status 400 with body `{"error": "No file uploaded"}`; with the field
present, the handler proceeds and yields status 200 with an HTML
document body (the rendered template, which contains the doctype). -/
theorem c7_analyze_route (deps : AnalyzeDeps)
    (files : List (String × UploadedFile)) :
    (files.lookup "resume" = none →
        analyze deps files = (400, RespBody.json noFileBody))
  ∧ (∀ f, files.lookup "resume" = some f →
        (analyze deps files).1 = 200
      ∧ ∃ s, (analyze deps files).2 = RespBody.html s
          ∧ List.IsInfix "<!DOCTYPE html>".data s.data) := by
  constructor
  · intro h
    rw [analyze, h]
  · intro f hf
    rw [analyze, hf]
    exact ⟨rfl, json_to_html (analyze_resume deps.gen
        (extractText deps (extOf f.filename) ("temp/" ++ savedName deps f))),
      rfl, doctype_infix_json_to_html _⟩

/-- Witness for C7: the empty form is rejected with 400, a form carrying
a `resume` file is answered with 200 and an HTML body. -/
theorem c7_analyze_route_witness :
    analyze ⟨fun _ => Except.ok "text", fun _ => Except.ok "text",
        fun _ => Except.ok "tips", "u1"⟩ [] = (400, RespBody.json noFileBody)
  ∧ (analyze ⟨fun _ => Except.ok "text", fun _ => Except.ok "text",
        fun _ => Except.ok "tips", "u1"⟩ [("resume", ⟨"cv.pdf", "bytes"⟩)]).1 = 200 :=
  ⟨(c7_analyze_route _ []).1 rfl,
    ((c7_analyze_route _ [("resume", ⟨"cv.pdf", "bytes"⟩)]).2 ⟨"cv.pdf", "bytes"⟩ rfl).1⟩

/-- C8: for any text containing (case-insensitively) "Python", "SQL" and
"education" but none of the other nine skills nor "projects",
"experience" or "certification", the analyzer matches exactly
`["Python", "SQL"]`, scores 18.18, and recommends the Projects,
Experience and Certification advisories but not the Education one. -/
theorem c8_scenario (gen : String → Except String String) (T : String)
    (hPy : skillFound T "Python" = true)
    (hSq : skillFound T "SQL" = true)
    (hJs : skillFound T "JavaScript" = false)
    (hMl : skillFound T "Machine Learning" = false)
    (hFl : skillFound T "Flask" = false)
    (hRe : skillFound T "React" = false)
    (hDs : skillFound T "Data Science" = false)
    (hHt : skillFound T "HTML" = false)
    (hCs : skillFound T "CSS" = false)
    (hNl : skillFound T "NLP" = false)
    (hAi : skillFound T "AI" = false)
    (hP : pyIn "projects" (pyLower T) = false)
    (hE : pyIn "experience" (pyLower T) = false)
    (hEd : pyIn "education" (pyLower T) = true)
    (hC : pyIn "certification" (pyLower T) = false) :
    (analyze_resume gen T).skills_matched = ["Python", "SQL"]
  ∧ (analyze_resume gen T).match_percentage = 909/50
  ∧ recMsgProjects ∈ (analyze_resume gen T).recommendations
  ∧ recMsgExperience ∈ (analyze_resume gen T).recommendations
  ∧ recMsgCertif ∈ (analyze_resume gen T).recommendations
  ∧ recMsgEducation ∉ (analyze_resume gen T).recommendations := by
  have hfilter : REQUIRED_SKILLS.filter (fun skill => skillFound T skill)
      = ["Python", "SQL"] := by
    rw [REQUIRED_SKILLS]
    simp [List.filter, hPy, hSq, hJs, hMl, hFl, hRe, hDs, hHt, hCs, hNl, hAi]
  have hm : (analyze_resume gen T).skills_matched = ["Python", "SQL"] := by
    rw [skills_matched_def, hfilter]
  have hpct : (analyze_resume gen T).match_percentage = 909/50 := by
    rw [match_percentage_def, hfilter, REQUIRED_SKILLS_length]
    norm_num [pyRound2, round_eq]
  have hrec : (analyze_resume gen T).recommendations
      = [recMsgProjects, recMsgExperience, recMsgCertif] := by
    rw [recommendations_def, hP, hE, hEd, hC]
    simp
  refine ⟨hm, hpct, ?_, ?_, ?_, ?_⟩ <;> rw [hrec] <;> decide

/-- Witness for C8 at the text "Python SQL education". -/
theorem c8_scenario_witness :
    (analyze_resume (fun _ => Except.ok "") "Python SQL education").skills_matched
        = ["Python", "SQL"]
  ∧ (analyze_resume (fun _ => Except.ok "") "Python SQL education").match_percentage
        = 909/50
  ∧ recMsgEducation ∉
        (analyze_resume (fun _ => Except.ok "") "Python SQL education").recommendations := by
  have h := c8_scenario (fun _ => Except.ok "") "Python SQL education"
    (by decide) (by decide) (by decide) (by decide) (by decide) (by decide)
    (by decide) (by decide) (by decide) (by decide) (by decide) (by decide)
    (by decide) (by decide) (by decide)
  exact ⟨h.1, h.2.1, h.2.2.2.2.2⟩

/-- C9 as stated is refuted by the dot-free filename "pdf": its derived
extension is "pdf", so the handler dispatches to the PDF extractor, not
the DOCX one. -/
theorem c9_counterexample :
    ('.') ∉ ("pdf" : String).data
  ∧ chooseExtractor (extOf "pdf") = Extractor.pdf := by
  decide

/-- C9 (amended): for a dot-free filename, the derived extension is the
entire lowercased filename, the upload is saved as `<uuid>.<that
string>`, the request succeeds with status 200, and extraction
dispatches to the DOCX path unless the lowercased filename is itself
"pdf" (in which case the PDF extractor is chosen). -/
theorem c9_dotless_filename (deps : AnalyzeDeps) (f : UploadedFile)
    (h : ('.') ∉ f.filename.data) :
    extOf f.filename = pyLower f.filename
  ∧ savedName deps f = deps.uuidStr ++ "." ++ pyLower f.filename
  ∧ (pyLower f.filename ≠ "pdf" →
        chooseExtractor (extOf f.filename) = Extractor.docx)
  ∧ (pyLower f.filename = "pdf" →
        chooseExtractor (extOf f.filename) = Extractor.pdf)
  ∧ (analyze deps [("resume", f)]).1 = 200 := by
  have hc : f.filename.data.contains '.' = false := by simpa using h
  have hext : extOf f.filename = pyLower f.filename := by
    rw [extOf, rsplitLastDot, if_neg (by simpa using h)]
  refine ⟨hext, ?_, ?_, ?_, rfl⟩
  · rw [savedName, hext]
  · intro hne
    rw [hext, chooseExtractor, if_neg hne]
  · intro heq
    rw [hext, chooseExtractor, if_pos heq]

/-- Witness for C9 (amended) at the dot-free filename "resumetxt". -/
theorem c9_dotless_filename_witness :
    extOf "resumetxt" = pyLower "resumetxt"
  ∧ chooseExtractor (extOf "resumetxt") = Extractor.docx := by
  have h := c9_dotless_filename
    ⟨fun _ => Except.ok "a", fun _ => Except.ok "b", fun _ => Except.ok "c", "u2"⟩
    ⟨"resumetxt", "bytes"⟩ (by decide)
  exact ⟨h.1, h.2.2.1 (by decide)⟩

/-- C10: substring matching means any text whose lowercased form
contains "ai" anywhere — even inside an unrelated word — matches the
skill "AI", so the match percentage is at least 9.09. -/
theorem c10_substring_ai (gen : String → Except String String) (T : String)
    (h : List.IsInfix ("ai" : String).data (pyLower T).data) :
    "AI" ∈ (analyze_resume gen T).skills_matched
  ∧ (909/100 : ℚ) ≤ (analyze_resume gen T).match_percentage := by
  have hfound : skillFound T "AI" = true := by
    have hlow : pyLower "AI" = "ai" := by decide
    rw [skillFound, hlow, pyIn]
    exact decide_eq_true h
  have hmem : "AI" ∈ REQUIRED_SKILLS.filter (fun skill => skillFound T skill) :=
    List.mem_filter.mpr ⟨by decide, hfound⟩
  constructor
  · rw [skills_matched_def]
    exact hmem
  · rw [match_percentage_def, REQUIRED_SKILLS_length, pyRound2]
    set k := (REQUIRED_SKILLS.filter (fun skill => skillFound T skill)).length with hk
    have hk1 : 1 ≤ k := List.length_pos_of_mem hmem
    have h1 : (1:ℚ) ≤ (k:ℚ) := by exact_mod_cast hk1
    have harg : (k : ℚ) / ((11:ℕ):ℚ) * 100 * 100 = (k * 10000 : ℚ) / 11 := by
      push_cast
      ring
    rw [harg]
    have h909 : (909 : ℤ) ≤ round ((k * 10000 : ℚ)/11) := by
      calc (909:ℤ) = ⌊(10000:ℚ)/11 + 1/2⌋ := by norm_num
      _ ≤ ⌊(k * 10000:ℚ)/11 + 1/2⌋ := Int.floor_le_floor (by linarith)
      _ = round ((k * 10000:ℚ)/11) := (round_eq _).symm
    have hcast : ((909:ℤ):ℚ) ≤ ((round ((k * 10000 : ℚ)/11) : ℤ) : ℚ) :=
      Int.cast_le.mpr h909
    push_cast at hcast
    linarith

/-- Witness for C10 at the text "maintained". -/
theorem c10_substring_ai_witness :
    List.IsInfix ("ai" : String).data (pyLower "maintained").data
  ∧ "AI" ∈ (analyze_resume (fun _ => Except.ok "tips") "maintained").skills_matched := by
  have h := c10_substring_ai (fun _ => Except.ok "tips") "maintained" (by decide)
  exact ⟨by decide, h.1⟩
